import Mathlib

/-!
Verification of the `RegexBuilder` fluent pattern-assembly library
(src/backend/src/builder/builder.py) against its natural-language
specification.

The Python class is shallowly embedded: the builder state is a structure
holding the two parallel sequences (`pattern_parts`, `explanations`);
every public token-emitting method is a function from its arguments and a
builder to a pair of the resulting builder state and an optional raised
error.  Python mutates the builder in place, so a method that raises after
a partial mutation returns the partially mutated state together with the
error — this is needed to settle the no-partial-emission claims.

Machine details of the embedding:
* Python `int` is embedded as `Int` (the builder only compares and prints
  quantities, no overflow is involved).
* The explanation list may, in degraded scenarios, hold non-string Python
  values; it is embedded as a list of `PyVal`, and `explain` maps every
  element through the total stringification `pyStr` (Python's `str`).
* `ValueError` / `TypeError` are the two error species the class raises.
* Python `warnings.warn` advisories are non-fatal; `validateCharRange`
  returns the list of advisory messages it would emit alongside success.
* `str.isalpha` / `str.isdigit` are embedded with `Char.isAlpha` /
  `Char.isDigit`; they agree on ASCII, which covers every concrete input
  used in the theorems below (the classification only influences the
  advisory messages, never which calls fail).
-/

namespace RegexCentral

/-- A Python value that can sit in the internal explanations list.  The
public methods only ever store strings, but a caller bypassing the public
surface can inject other values; `explain` must stringify them all. -/
inductive PyVal where
  | str (s : String)
  | int (n : Int)
  | none
deriving DecidableEq

/-- Python `str(...)` on the values of `PyVal` — a total stringification. -/
def pyStr : PyVal → String
  | .str s => s
  | .int n => toString n
  | .none => "None"

/-- The two exception species raised by the builder. -/
inductive PyError where
  | valueError (msg : String)
  | typeError (msg : String)
deriving DecidableEq

/-- The state of a `RegexBuilder` instance: the two parallel ordered
sequences.  (The dialect-flag set is not touched by any claim and is
omitted.) -/
structure Builder where
  pattern_parts : List String
  explanations : List PyVal
deriving DecidableEq

/-- A freshly constructed builder (`RegexBuilder.__init__`). -/
def emptyBuilder : Builder := ⟨[], []⟩

/-- `RegexBuilder.build`: concatenate the fragments with no separator. -/
def build (b : Builder) : String := String.join b.pattern_parts

/-- `RegexBuilder.explain`: defensively stringify every stored element. -/
def explain (b : Builder) : List String := b.explanations.map pyStr

/-- `v is not None and v <= 0` on an optional quantity. -/
def isNonpos : Option Int → Bool
  | some v => decide (v ≤ 0)
  | none => false

/-- `min_qty is not None and max_qty is not None and min_qty >= max_qty`. -/
def invertedMinMax : Option Int → Option Int → Bool
  | some mn, some mx => decide (mn ≥ mx)
  | _, _ => false

/-- The tail of the numeric selection chain of
`_get_quantifier_and_explanation`, reached when `qty in (None, 1)`:
the `min/max` cases and the final exactly-one fallback, in source order. -/
def quantTail (min_qty max_qty : Option Int) (singular plural : String) :
    String × String :=
  match min_qty, max_qty with
  | some mn, some mx =>
      ("\x7b" ++ toString mn ++ "," ++ toString mx ++ "\x7d",
       "Between " ++ toString mn ++ " and " ++ toString mx ++ " " ++ plural)
  | some mn, none =>
      ("\x7b" ++ toString mn ++ ",\x7d",
       "At least " ++ toString mn ++ " " ++ (if mn = 1 then singular else plural))
  | none, some mx =>
      ("\x7b0," ++ toString mx ++ "\x7d",
       "Up to " ++ toString mx ++ " " ++ (if mx = 1 then singular else plural))
  | none, none => ("", "Exactly 1 " ++ singular)

/-- `RegexBuilder._get_quantifier_and_explanation`.  The `int(...)`
coercions of the source cannot fail on arguments of the annotated type
`int | None` and are the identity here. -/
def getQuantifierAndExplanation (qty min_qty max_qty : Option Int)
    (special_quantifier : Option String) (unit_names : String × String) :
    Except PyError (String × String) :=
  let singular := unit_names.1
  let plural := unit_names.2
  match special_quantifier with
  | some sq =>
      if qty.isSome || min_qty.isSome || max_qty.isSome then
        .error (.valueError "Cannot use special quantifier along with quantity values.")
      else if sq = "+" then .ok (sq, "One or more " ++ plural)
      else if sq = "*" then .ok (sq, "Zero or more " ++ plural)
      else if sq = "?" then .ok (sq, "Zero or one " ++ singular)
      else .error (.valueError ("Invalid special quantifier: " ++ sq))
  | none =>
      if isNonpos qty || isNonpos min_qty || isNonpos max_qty then
        .error (.valueError "Quantities cannot be equal to or less than zero.")
      else if invertedMinMax min_qty max_qty then
        .error (.valueError "min_qty must be less than max_qty.")
      else
        match qty with
        | some q =>
            if q ≠ 1 then
              .ok ("\x7b" ++ toString q ++ "\x7d",
                   "Exactly " ++ toString q ++ " " ++ plural)
            else .ok (quantTail min_qty max_qty singular plural)
        | none => .ok (quantTail min_qty max_qty singular plural)

/-- The characters backslash-escaped by Python's `re.escape` (its
`_special_chars_map`). -/
def reSpecialChars : List Char :=
  ['(', ')', '[', ']', '\x7b', '\x7d', '?', '*', '+', '-', '|', '^', '$',
   '\\', '.', '&', '~', '#', ' ', '\t', '\n', '\r', '\x0b', '\x0c']

/-- Python `re.escape`: prepend a backslash to each special character. -/
def reEscape (s : String) : String :=
  String.join (s.data.map fun c =>
    if reSpecialChars.contains c then "\\" ++ String.singleton c
    else String.singleton c)

/-- One step of the escaping loop of `_escape_char_class_chars`: the piece
appended for character `c` at index `i` of a string of length `n`. -/
def sourceEscChar (n i : Nat) (c : Char) : String :=
  if c = ']' then "\\]"
  else if c = '\\' then "\\\\"
  else if c = '^' ∧ i = 0 then "\\^"
  else if c = '-' ∧ 0 < i ∧ i < n - 1 then "\\-"
  else String.singleton c

/-- The accumulating loop of `_escape_char_class_chars`
(`escaped += ...` over the enumerated characters). -/
def escapeFold (n : Nat) : Nat → List Char → String → String
  | _, [], acc => acc
  | i, c :: rest, acc => escapeFold n (i + 1) rest (acc ++ sourceEscChar n i c)

/-- `RegexBuilder._escape_char_class_chars`.  The non-ASCII check only
emits a non-fatal warning and is omitted; the two fatal guards are kept. -/
def escapeCharClassChars (chars : String) : Except PyError String :=
  if chars.isEmpty then
    .error (.valueError "Cannot escape empty character string")
  else if chars.data.contains '\x00' then
    .error (.valueError "Null character (\\x00) not allowed in character class")
  else .ok (escapeFold chars.data.length 0 chars.data "")

/-- One step of the escaping loop of `_escape_char_class_chars_mixed`:
the hyphen additionally needs escaping at the last index when ranges or
escape sequences follow in the same class. -/
def sourceEscCharMixed (n i : Nat) (has_content_after : Bool) (c : Char) :
    String :=
  if c = ']' then "\\]"
  else if c = '\\' then "\\\\"
  else if c = '^' ∧ i = 0 then "\\^"
  else if c = '-' then
    if (0 < i ∧ i < n - 1) ∨ (i = n - 1 ∧ has_content_after) then "\\-"
    else "-"
  else String.singleton c

/-- The accumulating loop of `_escape_char_class_chars_mixed`. -/
def escapeFoldMixed (n : Nat) (hca : Bool) : Nat → List Char → String → String
  | _, [], acc => acc
  | i, c :: rest, acc =>
      escapeFoldMixed n hca (i + 1) rest (acc ++ sourceEscCharMixed n i hca c)

/-- `RegexBuilder._escape_char_class_chars_mixed`. -/
def escapeCharClassCharsMixed (chars : String) (has_content_after : Bool) :
    Except PyError String :=
  if chars.isEmpty then
    .error (.valueError "Cannot escape empty character string")
  else if chars.data.contains '\x00' then
    .error (.valueError "Null character (\\x00) not allowed in character class")
  else .ok (escapeFoldMixed chars.data.length has_content_after 0 chars.data "")

/-- Code point of the first character of a string (`ord(s)` on the
single-character strings the validator accepts). -/
def headOrd (s : String) : Nat :=
  match s.data with
  | c :: _ => c.toNat
  | [] => 0

/-- `s.isalpha()` on a single-character string. -/
def headIsAlpha (s : String) : Bool :=
  match s.data with
  | c :: _ => c.isAlpha
  | [] => false

/-- `s.isdigit()` on a single-character string. -/
def headIsDigit (s : String) : Bool :=
  match s.data with
  | c :: _ => c.isDigit
  | [] => false

/-- `RegexBuilder._validate_char_range`.  The `isinstance(_, str)` guard
is discharged by the embedding's types.  On success the list of advisory
warning messages the source would emit via `warnings.warn` is returned;
they never block construction. -/
def validateCharRange (start stop : String) : Except PyError (List String) :=
  if start.length ≠ 1 then
    .error (.valueError ("Range start must be a single character, got: '" ++
      start ++ "' (length " ++ toString start.length ++ ")"))
  else if stop.length ≠ 1 then
    .error (.valueError ("Range end must be a single character, got: '" ++
      stop ++ "' (length " ++ toString stop.length ++ ")"))
  else
    let start_ord := headOrd start
    let end_ord := headOrd stop
    if start_ord > end_ord then
      .error (.valueError ("Invalid range '" ++ start ++ "-" ++ stop ++
        "': start character '" ++ start ++ "' (ASCII " ++ toString start_ord ++
        ") must be <= end character '" ++ stop ++ "' (ASCII " ++
        toString end_ord ++ ")"))
    else
      let w1 :=
        if headIsAlpha start ≠ headIsAlpha stop ∧ start_ord ≠ end_ord then
          ["Range '" ++ start ++ "-" ++ stop ++
           "' crosses character types (letter/non-letter). This may match unexpected characters."]
        else []
      let w2 :=
        if headIsDigit start ≠ headIsDigit stop ∧ start_ord ≠ end_ord then
          ["Range '" ++ start ++ "-" ++ stop ++
           "' crosses character types (digit/non-digit). This may match unexpected characters."]
        else []
      .ok (w1 ++ w2)

/-- The per-range validation loop of `char_ranges` / `char_class_mixed`. -/
def validateRangesList : List (String × String) → Except PyError Unit
  | [] => .ok ()
  | (s, e) :: rest =>
      match validateCharRange s e with
      | .error err => .error err
      | .ok _ => validateRangesList rest

/-- The whitelist of `_validate_escape_sequence`. -/
def validSequences : List String :=
  ["\\d", "\\D", "\\w", "\\W", "\\s", "\\S", "\\t", "\\n", "\\r", "\\f", "\\v"]

/-- `RegexBuilder._validate_escape_sequence` (the `isinstance` guard is
discharged by the embedding's types; the message's sorted listing of the
valid sequences is kept as a plain listing). -/
def validateEscapeSequence (seq : String) : Except PyError Unit :=
  if validSequences.contains seq then .ok ()
  else
    .error (.valueError ("Invalid escape sequence: '" ++ seq ++
      "'. Valid sequences for character classes are: " ++
      String.intercalate ", " validSequences))

/-- The per-sequence validation loop of `char_class_mixed`. -/
def validateEscapesList : List String → Except PyError Unit
  | [] => .ok ()
  | seq :: rest =>
      match validateEscapeSequence seq with
      | .error err => .error err
      | .ok _ => validateEscapesList rest

/-- Insertion step for `sorted(...)` on characters (by code point). -/
def insertChar (c : Char) : List Char → List Char
  | [] => [c]
  | d :: rest => if c.toNat ≤ d.toNat then c :: d :: rest else d :: insertChar c rest

/-- `sorted(...)` on a list of characters. -/
def sortCharsList : List Char → List Char
  | [] => []
  | c :: rest => insertChar c (sortCharsList rest)

/-- Collapse adjacent duplicates of a sorted list. -/
def dedupAdjacent : List Char → List Char
  | [] => []
  | [c] => [c]
  | c :: d :: rest =>
      if c = d then dedupAdjacent (d :: rest) else c :: dedupAdjacent (d :: rest)

/-- Python `''.join(sorted(set(chars)))`: the deduplicated, sorted display
form used by the character-class explanations. -/
def dedupSortChars (cs : List Char) : List Char := dedupAdjacent (sortCharsList cs)

/-- Result of a method call on the (in-place mutated) builder: the state
after the call together with the raised exception, if any.  On success the
error component is `none`; on failure the state component holds whatever
mutations happened before the raise. -/
abbrev CallResult := Builder × Option PyError

/-- Shared body of the six fixed-escape-code emitters (`digits`,
`non_digits`, `word_chars`, `non_word_chars`, `whitespace_chars`,
`non_whitespace_chars`), which differ only in escape code and noun pair. -/
def emitQuantified (code : String) (unit_names : String × String)
    (qty min_qty max_qty : Option Int) (special_quantifier : Option String)
    (b : Builder) : CallResult :=
  match getQuantifierAndExplanation qty min_qty max_qty special_quantifier unit_names with
  | .error e => (b, some e)
  | .ok (quantifier, explanation) =>
      ({ pattern_parts := b.pattern_parts ++ [code ++ quantifier],
         explanations := b.explanations ++ [PyVal.str explanation] }, none)

/-- `RegexBuilder.digits`. -/
def digits (qty min_qty max_qty : Option Int) (special_quantifier : Option String)
    (b : Builder) : CallResult :=
  emitQuantified "\\d" ("digit", "digits") qty min_qty max_qty special_quantifier b

/-- `RegexBuilder.non_digits`. -/
def non_digits (qty min_qty max_qty : Option Int) (special_quantifier : Option String)
    (b : Builder) : CallResult :=
  emitQuantified "\\D" ("non-digit character", "non-digit characters")
    qty min_qty max_qty special_quantifier b

/-- `RegexBuilder.word_chars`. -/
def word_chars (qty min_qty max_qty : Option Int) (special_quantifier : Option String)
    (b : Builder) : CallResult :=
  emitQuantified "\\w" ("word character", "word characters")
    qty min_qty max_qty special_quantifier b

/-- `RegexBuilder.non_word_chars`. -/
def non_word_chars (qty min_qty max_qty : Option Int) (special_quantifier : Option String)
    (b : Builder) : CallResult :=
  emitQuantified "\\W" ("non-word character", "non-word characters")
    qty min_qty max_qty special_quantifier b

/-- `RegexBuilder.whitespace_chars`. -/
def whitespace_chars (qty min_qty max_qty : Option Int) (special_quantifier : Option String)
    (b : Builder) : CallResult :=
  emitQuantified "\\s" ("whitespace character", "whitespace characters")
    qty min_qty max_qty special_quantifier b

/-- `RegexBuilder.non_whitespace_chars`. -/
def non_whitespace_chars (qty min_qty max_qty : Option Int) (special_quantifier : Option String)
    (b : Builder) : CallResult :=
  emitQuantified "\\S" ("non-whitespace character", "non-whitespace characters")
    qty min_qty max_qty special_quantifier b

/-- `RegexBuilder.start_anchor`. -/
def start_anchor (multiline : Bool) (b : Builder) : CallResult :=
  let p := if multiline then ("^", "Start of line") else ("\\A", "Start of text")
  ({ pattern_parts := b.pattern_parts ++ [p.1],
     explanations := b.explanations ++ [PyVal.str p.2] }, none)

/-- `RegexBuilder.end_anchor`. -/
def end_anchor (multiline : Bool) (b : Builder) : CallResult :=
  let p := if multiline then ("$", "End of line") else ("\\Z", "End of text")
  ({ pattern_parts := b.pattern_parts ++ [p.1],
     explanations := b.explanations ++ [PyVal.str p.2] }, none)

/-- `RegexBuilder.word_boundary`. -/
def word_boundary (b : Builder) : CallResult :=
  ({ pattern_parts := b.pattern_parts ++ ["\\b"],
     explanations := b.explanations ++ [PyVal.str "Word boundary"] }, none)

/-- `RegexBuilder.non_word_boundary`. -/
def non_word_boundary (b : Builder) : CallResult :=
  ({ pattern_parts := b.pattern_parts ++ ["\\B"],
     explanations := b.explanations ++ [PyVal.str "Non-word boundary"] }, none)

/-- `RegexBuilder.literal`.  Empty text is the one no-op call; otherwise
the escaped text is grouped exactly when the escaped form has more than
one character and a non-empty quantifier was resolved. -/
def literal (text : String) (qty min_qty max_qty : Option Int)
    (special_quantifier : Option String) (capturing : Bool) (b : Builder) :
    CallResult :=
  if text.isEmpty then (b, none)
  else
    let escaped := reEscape text
    match getQuantifierAndExplanation qty min_qty max_qty special_quantifier
        ("literal string", "literal strings") with
    | .error e => (b, some e)
    | .ok (quantifier, explanation) =>
        let grouped :=
          if escaped.length > 1 ∧ quantifier ≠ "" then
            if capturing then "(" ++ escaped ++ ")" else "(?:" ++ escaped ++ ")"
          else escaped
        let finalExplanation :=
          if quantifier = "" then "\"" ++ text ++ "\""
          else explanation ++ ": \"" ++ text ++ "\""
        ({ pattern_parts := b.pattern_parts ++ [grouped ++ quantifier],
           explanations := b.explanations ++ [PyVal.str finalExplanation] }, none)

/-- `RegexBuilder.start_group`. -/
def start_group (capturing : Bool) (b : Builder) : CallResult :=
  ({ pattern_parts := b.pattern_parts ++ [if capturing then "(" else "(?:"],
     explanations := b.explanations ++
       [PyVal.str (if capturing then "Start of capturing group"
                   else "Start of non-capturing group")] }, none)

/-- `RegexBuilder.end_group`.  Faithful to the source, the `")"` fragment
is appended *before* the quantifier is resolved, so a failing resolution
leaves that fragment behind. -/
def end_group (qty min_qty max_qty : Option Int)
    (special_quantifier : Option String) (b : Builder) : CallResult :=
  let b1 : Builder := { b with pattern_parts := b.pattern_parts ++ [")"] }
  match getQuantifierAndExplanation qty min_qty max_qty special_quantifier
      ("group", "groups") with
  | .error e => (b1, some e)
  | .ok (quantifier, explanation) =>
      if quantifier ≠ "" then
        ({ pattern_parts := b1.pattern_parts ++ [quantifier],
           explanations := b1.explanations ++ [PyVal.str explanation] }, none)
      else
        ({ pattern_parts := b1.pattern_parts,
           explanations := b1.explanations ++
             [PyVal.str (explanation ++ "and end of group")] }, none)

/-- The argument universe of the lookaround methods under Python's dynamic
typing: either an actual `RegexBuilder` instance, or a foreign value that
may or may not expose `build`/`explain` results of the right shapes. -/
inductive PyObj where
  | regexBuilder (b : Builder)
  | foreign (buildAttr : Option String) (explainAttr : Option (List PyVal))

/-- `RegexBuilder._process_lookaround_pattern`: a concrete
`isinstance(builder, RegexBuilder)` check, then the sub-pattern and the
joined, trimmed, non-empty explanation items (falling back to the raw
sub-pattern when none remain). -/
def processLookaroundPattern (arg : PyObj) : Except PyError (String × String) :=
  match arg with
  | .foreign _ _ =>
      .error (.typeError "Lookaround pattern must be a RegexBuilder instance.")
  | .regexBuilder sub =>
      let subpattern := build sub
      let explanation_list := explain sub
      let items := (explanation_list.map (fun s => s.trim)).filter
        (fun s => ¬ s.isEmpty)
      let explanation :=
        if items.isEmpty then subpattern else String.intercalate "; " items
      .ok (subpattern, explanation)

/-- `RegexBuilder.lookahead`. -/
def lookahead (arg : PyObj) (b : Builder) : CallResult :=
  match processLookaroundPattern arg with
  | .error e => (b, some e)
  | .ok (subpattern, explanation) =>
      ({ pattern_parts := b.pattern_parts ++ ["(?=" ++ subpattern ++ ")"],
         explanations := b.explanations ++
           [PyVal.str ("if followed by " ++ explanation)] }, none)

/-- `RegexBuilder.negative_lookahead`. -/
def negative_lookahead (arg : PyObj) (b : Builder) : CallResult :=
  match processLookaroundPattern arg with
  | .error e => (b, some e)
  | .ok (subpattern, explanation) =>
      ({ pattern_parts := b.pattern_parts ++ ["(?!" ++ subpattern ++ ")"],
         explanations := b.explanations ++
           [PyVal.str ("if not followed by " ++ explanation)] }, none)

/-- `RegexBuilder.lookbehind`. -/
def lookbehind (arg : PyObj) (b : Builder) : CallResult :=
  match processLookaroundPattern arg with
  | .error e => (b, some e)
  | .ok (subpattern, explanation) =>
      ({ pattern_parts := b.pattern_parts ++ ["(?<=" ++ subpattern ++ ")"],
         explanations := b.explanations ++
           [PyVal.str ("if preceded by " ++ explanation)] }, none)

/-- `RegexBuilder.negative_lookbehind`. -/
def negative_lookbehind (arg : PyObj) (b : Builder) : CallResult :=
  match processLookaroundPattern arg with
  | .error e => (b, some e)
  | .ok (subpattern, explanation) =>
      ({ pattern_parts := b.pattern_parts ++ ["(?<!" ++ subpattern ++ ")"],
         explanations := b.explanations ++
           [PyVal.str ("if not preceded by " ++ explanation)] }, none)

/-- `RegexBuilder.char_class`. -/
def char_class (chars : String) (negated : Bool)
    (qty min_qty max_qty : Option Int) (special_quantifier : Option String)
    (b : Builder) : CallResult :=
  if chars.isEmpty then (b, some (.valueError "Character class cannot be empty"))
  else
    match escapeCharClassChars chars with
    | .error e => (b, some e)
    | .ok escaped_chars =>
        let pfx := if negated then "^" else ""
        let cls := "[" ++ pfx ++ escaped_chars ++ "]"
        match getQuantifierAndExplanation qty min_qty max_qty special_quantifier
            ("character from class", "characters from class") with
        | .error e => (b, some e)
        | .ok (quantifier, explanation) =>
            let char_display := String.mk (dedupSortChars chars.data)
            let base := "Any character " ++ (if negated then "NOT " else "") ++
              "in '" ++ char_display ++ "'"
            let finalExplanation :=
              if quantifier = "" then base else explanation ++ ": " ++ base
            ({ pattern_parts := b.pattern_parts ++ [cls ++ quantifier],
               explanations := b.explanations ++ [PyVal.str finalExplanation] },
             none)

/-- `RegexBuilder.char_range`. -/
def char_range (start stop : String) (negated : Bool)
    (qty min_qty max_qty : Option Int) (special_quantifier : Option String)
    (b : Builder) : CallResult :=
  match validateCharRange start stop with
  | .error e => (b, some e)
  | .ok _warnings =>
      let pfx := if negated then "^" else ""
      let cls := "[" ++ pfx ++ start ++ "-" ++ stop ++ "]"
      match getQuantifierAndExplanation qty min_qty max_qty special_quantifier
          ("character from range", "characters from range") with
      | .error e => (b, some e)
      | .ok (quantifier, explanation) =>
          let range_description := "'" ++ start ++ "' to '" ++ stop ++ "'"
          let base := "Any character " ++ (if negated then "NOT " else "") ++
            "in range " ++ range_description
          let finalExplanation :=
            if quantifier = "" then base else explanation ++ ": " ++ base
          ({ pattern_parts := b.pattern_parts ++ [cls ++ quantifier],
             explanations := b.explanations ++ [PyVal.str finalExplanation] },
           none)

/-- `RegexBuilder.char_ranges`. -/
def char_ranges (ranges : List (String × String)) (negated : Bool)
    (qty min_qty max_qty : Option Int) (special_quantifier : Option String)
    (b : Builder) : CallResult :=
  if ranges.isEmpty then (b, some (.valueError "Ranges list cannot be empty"))
  else
    match validateRangesList ranges with
    | .error e => (b, some e)
    | .ok _ =>
        let range_parts := ranges.map fun p => p.1 ++ "-" ++ p.2
        let pfx := if negated then "^" else ""
        let cls := "[" ++ pfx ++ String.join range_parts ++ "]"
        match getQuantifierAndExplanation qty min_qty max_qty special_quantifier
            ("character from ranges", "characters from ranges") with
        | .error e => (b, some e)
        | .ok (quantifier, explanation) =>
            let range_descriptions := ranges.map fun p =>
              "'" ++ p.1 ++ "'-'" ++ p.2 ++ "'"
            let ranges_text := String.intercalate ", " range_descriptions
            let base := "Any character " ++ (if negated then "NOT " else "") ++
              "in ranges: " ++ ranges_text
            let finalExplanation :=
              if quantifier = "" then base else explanation ++ ": " ++ base
            ({ pattern_parts := b.pattern_parts ++ [cls ++ quantifier],
               explanations := b.explanations ++ [PyVal.str finalExplanation] },
             none)

/-- `RegexBuilder.char_class_mixed`.  `ranges`/`escape_sequences` default
to `None` in the source and are only tested for truthiness; both `None`
and `[]` are embedded as the empty list. -/
def char_class_mixed (chars : String) (ranges : List (String × String))
    (escape_sequences : List String) (negated : Bool)
    (qty min_qty max_qty : Option Int) (special_quantifier : Option String)
    (b : Builder) : CallResult :=
  if chars.isEmpty ∧ ranges.isEmpty ∧ escape_sequences.isEmpty then
    (b, some (.valueError
      "Character class cannot be empty - provide chars, ranges, or escape_sequences"))
  else
    let charsPart : Except PyError (List String) :=
      if chars.isEmpty then .ok []
      else
        let has_content_after := !ranges.isEmpty || !escape_sequences.isEmpty
        match escapeCharClassCharsMixed chars has_content_after with
        | .error e => .error e
        | .ok esc => .ok [esc]
    match charsPart with
    | .error e => (b, some e)
    | .ok cp =>
        match validateRangesList ranges with
        | .error e => (b, some e)
        | .ok _ =>
            match validateEscapesList escape_sequences with
            | .error e => (b, some e)
            | .ok _ =>
                let class_parts :=
                  cp ++ (ranges.map fun p => p.1 ++ "-" ++ p.2) ++ escape_sequences
                let pfx := if negated then "^" else ""
                let cls := "[" ++ pfx ++ String.join class_parts ++ "]"
                match getQuantifierAndExplanation qty min_qty max_qty
                    special_quantifier
                    ("character from class", "characters from class") with
                | .error e => (b, some e)
                | .ok (quantifier, explanation) =>
                    let explanation_parts :=
                      (if chars.isEmpty then [] else
                        ["characters '" ++ String.mk (dedupSortChars chars.data) ++ "'"]) ++
                      (if ranges.isEmpty then [] else
                        ["ranges " ++ String.intercalate ", "
                          (ranges.map fun p => "'" ++ p.1 ++ "'-'" ++ p.2 ++ "'")]) ++
                      (if escape_sequences.isEmpty then [] else
                        ["escape sequences " ++
                          String.intercalate ", " escape_sequences])
                    let combined := String.intercalate ", " explanation_parts
                    let base := "Any character " ++
                      (if negated then "NOT " else "") ++ "matching: " ++ combined
                    let finalExplanation :=
                      if quantifier = "" then base
                      else explanation ++ ": " ++ base
                    ({ pattern_parts := b.pattern_parts ++ [cls ++ quantifier],
                       explanations := b.explanations ++
                         [PyVal.str finalExplanation] }, none)

/-- One public token-emitting call, with its arguments. -/
inductive Op where
  | startAnchorOp (multiline : Bool)
  | endAnchorOp (multiline : Bool)
  | digitsOp (qty min_qty max_qty : Option Int) (special : Option String)
  | nonDigitsOp (qty min_qty max_qty : Option Int) (special : Option String)
  | wordCharsOp (qty min_qty max_qty : Option Int) (special : Option String)
  | nonWordCharsOp (qty min_qty max_qty : Option Int) (special : Option String)
  | whitespaceCharsOp (qty min_qty max_qty : Option Int) (special : Option String)
  | nonWhitespaceCharsOp (qty min_qty max_qty : Option Int) (special : Option String)
  | wordBoundaryOp
  | nonWordBoundaryOp
  | literalOp (text : String) (qty min_qty max_qty : Option Int)
      (special : Option String) (capturing : Bool)
  | startGroupOp (capturing : Bool)
  | endGroupOp (qty min_qty max_qty : Option Int) (special : Option String)
  | lookaheadOp (arg : PyObj)
  | negativeLookaheadOp (arg : PyObj)
  | lookbehindOp (arg : PyObj)
  | negativeLookbehindOp (arg : PyObj)
  | charClassOp (chars : String) (negated : Bool)
      (qty min_qty max_qty : Option Int) (special : Option String)
  | charRangeOp (start stop : String) (negated : Bool)
      (qty min_qty max_qty : Option Int) (special : Option String)
  | charRangesOp (ranges : List (String × String)) (negated : Bool)
      (qty min_qty max_qty : Option Int) (special : Option String)
  | charClassMixedOp (chars : String) (ranges : List (String × String))
      (escape_sequences : List String) (negated : Bool)
      (qty min_qty max_qty : Option Int) (special : Option String)

/-- Dispatch one call to the corresponding method. -/
def applyOp : Op → Builder → CallResult
  | .startAnchorOp m, b => start_anchor m b
  | .endAnchorOp m, b => end_anchor m b
  | .digitsOp q mn mx sp, b => digits q mn mx sp b
  | .nonDigitsOp q mn mx sp, b => non_digits q mn mx sp b
  | .wordCharsOp q mn mx sp, b => word_chars q mn mx sp b
  | .nonWordCharsOp q mn mx sp, b => non_word_chars q mn mx sp b
  | .whitespaceCharsOp q mn mx sp, b => whitespace_chars q mn mx sp b
  | .nonWhitespaceCharsOp q mn mx sp, b => non_whitespace_chars q mn mx sp b
  | .wordBoundaryOp, b => word_boundary b
  | .nonWordBoundaryOp, b => non_word_boundary b
  | .literalOp t q mn mx sp c, b => literal t q mn mx sp c b
  | .startGroupOp c, b => start_group c b
  | .endGroupOp q mn mx sp, b => end_group q mn mx sp b
  | .lookaheadOp a, b => lookahead a b
  | .negativeLookaheadOp a, b => negative_lookahead a b
  | .lookbehindOp a, b => lookbehind a b
  | .negativeLookbehindOp a, b => negative_lookbehind a b
  | .charClassOp cs n q mn mx sp, b => char_class cs n q mn mx sp b
  | .charRangeOp s e n q mn mx sp, b => char_range s e n q mn mx sp b
  | .charRangesOp rs n q mn mx sp, b => char_ranges rs n q mn mx sp b
  | .charClassMixedOp cs rs es n q mn mx sp, b =>
      char_class_mixed cs rs es n q mn mx sp b

/-- The only legitimately fragment-free call: `literal` with empty text. -/
def isNoOp : Op → Bool
  | .literalOp t _ _ _ _ _ => t.isEmpty
  | _ => false

/-- Run a chain of calls, stopping at the first raised exception. -/
def runOps : List Op → Builder → CallResult
  | [], b => (b, none)
  | op :: rest, b =>
      match applyOp op b with
      | (b', none) => runOps rest b'
      | (b', some e) => (b', some e)

/-- The call raised a `ValueError` (Python's invalid-argument error). -/
def raisesVE (r : CallResult) : Prop :=
  ∃ msg, r.2 = some (PyError.valueError msg)

/-- The numeric quantifier arguments pass the resolver's validation:
every present value is positive and `min < max` when both are present. -/
def validQuantities (qty min_qty max_qty : Option Int) : Prop :=
  isNonpos qty = false ∧ isNonpos min_qty = false ∧ isNonpos max_qty = false ∧
  invertedMinMax min_qty max_qty = false

instance (qty mn mx : Option Int) : Decidable (validQuantities qty mn mx) := by
  unfold validQuantities; infer_instance

/-! ### Helper lemmas -/

theorem getQuantifier_special_conflict (q : Int) (mn mx : Option Int)
    (s : String) (u : String × String) :
    getQuantifierAndExplanation (some q) mn mx (some s) u =
      .error (.valueError "Cannot use special quantifier along with quantity values.") := rfl

theorem escapeCharClassChars_cases (chars : String) :
    (∃ s, escapeCharClassChars chars = .ok s) ∨
    (∃ m, escapeCharClassChars chars = .error (.valueError m)) := by
  unfold escapeCharClassChars
  split_ifs
  · exact Or.inr ⟨_, rfl⟩
  · exact Or.inr ⟨_, rfl⟩
  · exact Or.inl ⟨_, rfl⟩

theorem escapeCharClassCharsMixed_cases (chars : String) (hca : Bool) :
    (∃ s, escapeCharClassCharsMixed chars hca = .ok s) ∨
    (∃ m, escapeCharClassCharsMixed chars hca = .error (.valueError m)) := by
  unfold escapeCharClassCharsMixed
  split_ifs
  · exact Or.inr ⟨_, rfl⟩
  · exact Or.inr ⟨_, rfl⟩
  · exact Or.inl ⟨_, rfl⟩

theorem validateCharRange_cases (start stop : String) :
    (∃ ws, validateCharRange start stop = .ok ws) ∨
    (∃ m, validateCharRange start stop = .error (.valueError m)) := by
  unfold validateCharRange
  split_ifs
  · exact Or.inr ⟨_, rfl⟩
  · exact Or.inr ⟨_, rfl⟩
  · dsimp only
    by_cases h3 : headOrd start > headOrd stop
    · rw [if_pos h3]; exact Or.inr ⟨_, rfl⟩
    · rw [if_neg h3]; exact Or.inl ⟨_, rfl⟩

theorem validateRangesList_cases (ranges : List (String × String)) :
    validateRangesList ranges = .ok () ∨
    (∃ m, validateRangesList ranges = .error (.valueError m)) := by
  induction ranges with
  | nil => exact Or.inl rfl
  | cons p rest ih =>
      obtain ⟨s, e⟩ := p
      unfold validateRangesList
      rcases validateCharRange_cases s e with ⟨ws, hws⟩ | ⟨m, hm⟩
      · rw [hws]; exact ih
      · rw [hm]; exact Or.inr ⟨m, rfl⟩

theorem validateEscapesList_cases (seqs : List String) :
    validateEscapesList seqs = .ok () ∨
    (∃ m, validateEscapesList seqs = .error (.valueError m)) := by
  induction seqs with
  | nil => exact Or.inl rfl
  | cons s rest ih =>
      unfold validateEscapesList validateEscapeSequence
      split_ifs
      · exact ih
      · exact Or.inr ⟨_, rfl⟩

theorem isEmpty_false_of_ne (s : String) (h : s ≠ "") : s.isEmpty = false := by
  cases hb : s.isEmpty
  · rfl
  · exact absurd ((String.isEmpty_iff s).mp hb) h

/-! ### C10 -/

/-- C10: `literal` called with empty text returns the builder unchanged
and never raises, whatever the quantifier arguments — their validation is
skipped entirely. -/
theorem c10_literal_empty_noop (qty min_qty max_qty : Option Int)
    (special_quantifier : Option String) (capturing : Bool) (b : Builder) :
    literal "" qty min_qty max_qty special_quantifier capturing b = (b, none) := rfl

/-! ### C1 -/

/-- C1: for valid arguments, `_get_quantifier_and_explanation` realizes
the spec's first-match-wins selection order on noun pair
(`singular`, `plural`): `+`/`*`/`?` give their symbol with the
"One or more"/"Zero or more"/"Zero or one" phrase; an exact quantity other
than 1 gives `{exact}` with "Exactly exact plural"; otherwise min and max
give `{min,max}` with "Between min and max plural"; only min gives
`{min,}` with "At least min unit" (singular iff min = 1); only max gives
`{0,max}` with "Up to max unit" (singular iff max = 1); nothing (or an
exact quantity of 1) gives the empty quantifier with
"Exactly 1 singular". -/
theorem c1_quantifier_resolution (singular plural : String) :
    (getQuantifierAndExplanation none none none (some "+") (singular, plural) =
       .ok ("+", "One or more " ++ plural)) ∧
    (getQuantifierAndExplanation none none none (some "*") (singular, plural) =
       .ok ("*", "Zero or more " ++ plural)) ∧
    (getQuantifierAndExplanation none none none (some "?") (singular, plural) =
       .ok ("?", "Zero or one " ++ singular)) ∧
    (∀ (q : Int) (mn mx : Option Int), validQuantities (some q) mn mx → q ≠ 1 →
       getQuantifierAndExplanation (some q) mn mx none (singular, plural) =
         .ok ("\x7b" ++ toString q ++ "\x7d",
              "Exactly " ++ toString q ++ " " ++ plural)) ∧
    (∀ (qty : Option Int) (mn mx : Int), (qty = none ∨ qty = some 1) →
       validQuantities qty (some mn) (some mx) →
       getQuantifierAndExplanation qty (some mn) (some mx) none (singular, plural) =
         .ok ("\x7b" ++ toString mn ++ "," ++ toString mx ++ "\x7d",
              "Between " ++ toString mn ++ " and " ++ toString mx ++ " " ++ plural)) ∧
    (∀ (qty : Option Int) (mn : Int), (qty = none ∨ qty = some 1) →
       validQuantities qty (some mn) none →
       getQuantifierAndExplanation qty (some mn) none none (singular, plural) =
         .ok ("\x7b" ++ toString mn ++ ",\x7d",
              "At least " ++ toString mn ++ " " ++
                (if mn = 1 then singular else plural))) ∧
    (∀ (qty : Option Int) (mx : Int), (qty = none ∨ qty = some 1) →
       validQuantities qty none (some mx) →
       getQuantifierAndExplanation qty none (some mx) none (singular, plural) =
         .ok ("\x7b0," ++ toString mx ++ "\x7d",
              "Up to " ++ toString mx ++ " " ++
                (if mx = 1 then singular else plural))) ∧
    (∀ (qty : Option Int), (qty = none ∨ qty = some 1) →
       getQuantifierAndExplanation qty none none none (singular, plural) =
         .ok ("", "Exactly 1 " ++ singular)) := by
  refine ⟨rfl, rfl, rfl, ?_, ?_, ?_, ?_, ?_⟩
  · rintro q mn mx ⟨h1, h2, h3, h4⟩ hq
    simp [getQuantifierAndExplanation, h1, h2, h3, h4, hq]
  · rintro qty mn mx (rfl | rfl) ⟨h1, h2, h3, h4⟩ <;>
      simp [getQuantifierAndExplanation, h1, h2, h3, h4, quantTail]
  · rintro qty mn (rfl | rfl) ⟨h1, h2, h3, h4⟩ <;>
      simp [getQuantifierAndExplanation, h1, h2, h3, h4, quantTail]
  · rintro qty mx (rfl | rfl) ⟨h1, h2, h3, h4⟩ <;>
      simp [getQuantifierAndExplanation, h1, h2, h3, h4, quantTail]
  · rintro qty (rfl | rfl) <;> rfl

/-- Witness for C1 at the spec's own examples (`exact=3` digits,
`min=2,max=5`, `min=1` only, `max=4` only, `special="+"`). -/
theorem c1_witness :
    getQuantifierAndExplanation (some 3) none none none ("digit", "digits") =
      .ok ("\x7b3\x7d", "Exactly 3 digits") ∧
    getQuantifierAndExplanation none (some 2) (some 5) none ("digit", "digits") =
      .ok ("\x7b2,5\x7d", "Between 2 and 5 digits") ∧
    getQuantifierAndExplanation none (some 1) none none ("digit", "digits") =
      .ok ("\x7b1,\x7d", "At least 1 digit") ∧
    getQuantifierAndExplanation none none (some 4) none ("digit", "digits") =
      .ok ("\x7b0,4\x7d", "Up to 4 digits") ∧
    getQuantifierAndExplanation none none none (some "+") ("digit", "digits") =
      .ok ("+", "One or more digits") := by
  have h := c1_quantifier_resolution "digit" "digits"
  refine ⟨?_, ?_, ?_, ?_, ?_⟩
  · exact h.2.2.2.1 3 none none (by decide) (by decide)
  · exact h.2.2.2.2.1 none 2 5 (Or.inl rfl) (by decide)
  · exact h.2.2.2.2.2.1 none 1 (Or.inl rfl) (by decide)
  · exact h.2.2.2.2.2.2.1 none 4 (Or.inl rfl) (by decide)
  · exact h.1

/-! ### C8 -/

/-- C8: `end_group` with a quantifier resolving to a non-empty suffix
appends the suffix as a separate fragment after the `)` fragment and the
quantifier phrase as the explanation; with the empty quantifier
(qty absent, or 1, and no other quantifier argument) it appends only `)`
and the explanation is the resolver's exactly-one phrase concatenated
directly with "and end of group" with no separator:
"Exactly 1 groupand end of group". -/
theorem c8_end_group :
    (∀ (qty min_qty max_qty : Option Int) (sp : Option String) (b : Builder)
       (quant expl : String),
       getQuantifierAndExplanation qty min_qty max_qty sp ("group", "groups") =
         .ok (quant, expl) →
       quant ≠ "" →
       end_group qty min_qty max_qty sp b =
         ({ pattern_parts := b.pattern_parts ++ [")", quant],
            explanations := b.explanations ++ [PyVal.str expl] }, none)) ∧
    (∀ (qty : Option Int) (b : Builder), (qty = none ∨ qty = some 1) →
       end_group qty none none none b =
         ({ pattern_parts := b.pattern_parts ++ [")"],
            explanations := b.explanations ++
              [PyVal.str "Exactly 1 groupand end of group"] }, none)) := by
  constructor
  · intro qty mn mx sp b quant expl hok hq
    unfold end_group
    rw [hok]
    simp [hq]
  · rintro qty b (rfl | rfl) <;> rfl

/-- Witness for C8: a quantified `end_group` (qty 2) and an unquantified
one on a builder holding an open group. -/
theorem c8_witness :
    end_group (some 2) none none none ⟨["(?:"], [PyVal.str "Start of non-capturing group"]⟩ =
      (⟨["(?:", ")", "\x7b2\x7d"],
        [PyVal.str "Start of non-capturing group", PyVal.str "Exactly 2 groups"]⟩, none) ∧
    end_group none none none none emptyBuilder =
      (⟨[")"], [PyVal.str "Exactly 1 groupand end of group"]⟩, none) := by
  constructor
  · exact (c8_end_group).1 (some 2) none none none _ "\x7b2\x7d" "Exactly 2 groups"
      (by rfl) (by decide)
  · exact (c8_end_group).2 none emptyBuilder (Or.inl rfl)

/-! ### C4 -/

/-- C4 counterexample: the single-character literal `"."` escapes to the
two-character `"\\."`, so with a quantifier it IS wrapped in a
(non-capturing) group — the claim's "a single-character literal with a
quantifier is never wrapped in a group (including single characters such
as '.' that escape to two characters)" fails at this input. -/
theorem c4_counterexample :
    (literal "." (some 2) none none none false emptyBuilder).1.pattern_parts =
      ["(?:\\.)\x7b2\x7d"] := rfl

/-- C4 (amended): for non-empty text whose quantifier resolves, the
escaped text is wrapped — `( … )` when capturing, `(?: … )` otherwise —
before the quantifier suffix exactly when the ESCAPED text is longer than
one character and the suffix is non-empty; a literal whose escaped form is
a single character is never wrapped, but a single-character literal whose
escape is two characters (such as `"."`) is wrapped. -/
theorem c4_literal_grouping (text : String) (qty min_qty max_qty : Option Int)
    (sp : Option String) (capturing : Bool) (b : Builder) (quant expl : String)
    (htext : text ≠ "")
    (hok : getQuantifierAndExplanation qty min_qty max_qty sp
      ("literal string", "literal strings") = .ok (quant, expl)) :
    (literal text qty min_qty max_qty sp capturing b).2 = none ∧
    (literal text qty min_qty max_qty sp capturing b).1.pattern_parts =
      b.pattern_parts ++
        [(if (reEscape text).length > 1 ∧ quant ≠ "" then
            if capturing then "(" ++ reEscape text ++ ")"
            else "(?:" ++ reEscape text ++ ")"
          else reEscape text) ++ quant] := by
  unfold literal
  rw [if_neg (by simp [isEmpty_false_of_ne text htext]), hok]
  exact ⟨rfl, rfl⟩

/-- Witness for C4 at the spec's example: `literal("ab", exact=2)`
yields the non-capturing-grouped doubled form, and capturing yields the
capturing-grouped form. -/
theorem c4_witness :
    (literal "ab" (some 2) none none none false emptyBuilder).1.pattern_parts =
      ["(?:ab)\x7b2\x7d"] ∧
    (literal "ab" (some 2) none none none true emptyBuilder).1.pattern_parts =
      ["(ab)\x7b2\x7d"] := by
  constructor
  · have h := (c4_literal_grouping "ab" (some 2) none none none false
      emptyBuilder "\x7b2\x7d" "Exactly 2 literal strings" (by decide) (by rfl)).2
    simpa using h
  · have h := (c4_literal_grouping "ab" (some 2) none none none true
      emptyBuilder "\x7b2\x7d" "Exactly 2 literal strings" (by decide) (by rfl)).2
    simpa using h

/-! ### C2 -/

/-- C2 counterexample: `literal` with empty text skips quantifier
validation entirely, so supplying an exact quantity together with a
special quantifier does NOT raise — the call is a silent no-op,
contradicting "always raises an invalid-argument error ... for every
choice of the other arguments". -/
theorem c2_counterexample :
    literal "" (some 3) none none (some "+") false emptyBuilder =
      (emptyBuilder, none) := rfl

theorem emitQuantified_conflict (code : String) (u : String × String)
    (q : Int) (mn mx : Option Int) (s : String) (b : Builder) :
    raisesVE (emitQuantified code u (some q) mn mx (some s) b) := by
  unfold emitQuantified
  rw [getQuantifier_special_conflict]
  exact ⟨_, rfl⟩

/-- C2 (amended): every token-emitting method that takes quantifier
parameters raises a `ValueError` when an exact quantity is supplied
together with a special quantifier, for every choice of the other
arguments — except `literal` with empty text, which returns unchanged
without validating (see the counterexample). -/
theorem c2_quantifier_conflict (q : Int) (s : String)
    (min_qty max_qty : Option Int) (b : Builder) :
    raisesVE (digits (some q) min_qty max_qty (some s) b) ∧
    raisesVE (non_digits (some q) min_qty max_qty (some s) b) ∧
    raisesVE (word_chars (some q) min_qty max_qty (some s) b) ∧
    raisesVE (non_word_chars (some q) min_qty max_qty (some s) b) ∧
    raisesVE (whitespace_chars (some q) min_qty max_qty (some s) b) ∧
    raisesVE (non_whitespace_chars (some q) min_qty max_qty (some s) b) ∧
    (∀ (text : String) (capturing : Bool), text ≠ "" →
       raisesVE (literal text (some q) min_qty max_qty (some s) capturing b)) ∧
    (∀ (chars : String) (negated : Bool),
       raisesVE (char_class chars negated (some q) min_qty max_qty (some s) b)) ∧
    (∀ (start stop : String) (negated : Bool),
       raisesVE (char_range start stop negated (some q) min_qty max_qty (some s) b)) ∧
    (∀ (ranges : List (String × String)) (negated : Bool),
       raisesVE (char_ranges ranges negated (some q) min_qty max_qty (some s) b)) ∧
    (∀ (chars : String) (ranges : List (String × String))
       (escape_sequences : List String) (negated : Bool),
       raisesVE (char_class_mixed chars ranges escape_sequences negated
         (some q) min_qty max_qty (some s) b)) ∧
    raisesVE (end_group (some q) min_qty max_qty (some s) b) := by
  refine ⟨emitQuantified_conflict _ _ _ _ _ _ _,
    emitQuantified_conflict _ _ _ _ _ _ _,
    emitQuantified_conflict _ _ _ _ _ _ _,
    emitQuantified_conflict _ _ _ _ _ _ _,
    emitQuantified_conflict _ _ _ _ _ _ _,
    emitQuantified_conflict _ _ _ _ _ _ _,
    ?_, ?_, ?_, ?_, ?_, ?_⟩
  · intro text capturing htext
    unfold literal
    rw [if_neg (by simp [isEmpty_false_of_ne text htext]),
      getQuantifier_special_conflict]
    exact ⟨_, rfl⟩
  · intro chars negated
    unfold char_class
    cases hce : chars.isEmpty
    · rcases escapeCharClassChars_cases chars with ⟨esc, hs⟩ | ⟨m, hm⟩
      · simp only [hs]; exact ⟨_, rfl⟩
      · simp only [hm]; exact ⟨_, rfl⟩
    · exact ⟨_, rfl⟩
  · intro start stop negated
    unfold char_range
    rcases validateCharRange_cases start stop with ⟨ws, hws⟩ | ⟨m, hm⟩
    · simp only [hws]; exact ⟨_, rfl⟩
    · simp only [hm]; exact ⟨_, rfl⟩
  · intro ranges negated
    unfold char_ranges
    cases hre : ranges.isEmpty
    · rcases validateRangesList_cases ranges with hr | ⟨m, hm⟩
      · simp only [hr]; exact ⟨_, rfl⟩
      · simp only [hm]; exact ⟨_, rfl⟩
    · exact ⟨_, rfl⟩
  · intro chars ranges escape_sequences negated
    unfold char_class_mixed
    by_cases h0 : chars.isEmpty ∧ ranges.isEmpty ∧ escape_sequences.isEmpty
    · rw [if_pos h0]; exact ⟨_, rfl⟩
    · rw [if_neg h0]
      cases hc : chars.isEmpty
      · rcases escapeCharClassCharsMixed_cases chars
            (!ranges.isEmpty || !escape_sequences.isEmpty) with ⟨esc, hs⟩ | ⟨m, hm⟩
        · simp only [hs]
          rcases validateRangesList_cases ranges with hr | ⟨m, hm⟩
          · simp only [hr]
            rcases validateEscapesList_cases escape_sequences with he | ⟨m, hm⟩
            · simp only [he]; exact ⟨_, rfl⟩
            · simp only [hm]; exact ⟨_, rfl⟩
          · simp only [hm]; exact ⟨_, rfl⟩
        · simp only [hm]; exact ⟨_, rfl⟩
      · rcases validateRangesList_cases ranges with hr | ⟨m, hm⟩
        · simp only [hr]
          rcases validateEscapesList_cases escape_sequences with he | ⟨m, hm⟩
          · simp only [he]; exact ⟨_, rfl⟩
          · simp only [hm]; exact ⟨_, rfl⟩
        · simp only [hm]; exact ⟨_, rfl⟩
  · unfold end_group
    rw [getQuantifier_special_conflict]
    exact ⟨_, rfl⟩

/-- Witness for C2: the conflict raises on a concrete `digits` call and a
concrete non-empty `literal` call. -/
theorem c2_witness :
    raisesVE (digits (some 3) none none (some "+") emptyBuilder) ∧
    raisesVE (literal "a" (some 3) none none (some "+") false emptyBuilder) := by
  have h := c2_quantifier_conflict 3 "+" none none emptyBuilder
  exact ⟨h.1, h.2.2.2.2.2.2.1 "a" false (by decide)⟩

/-! ### C3 -/

/-- C3 counterexample: `end_group` appends the `")"` fragment BEFORE
resolving the quantifier, so a call with an invalid quantifier combination
raises but leaves the extra `")"` fragment behind — the builder is not
"exactly as it was before the failing call". -/
theorem c3_counterexample :
    (end_group (some 3) none none (some "+") emptyBuilder).2.isSome = true ∧
    (end_group (some 3) none none (some "+") emptyBuilder).1.pattern_parts =
      [")"] := ⟨rfl, rfl⟩

theorem emitQuantified_error_state (code : String) (u : String × String)
    (q mn mx : Option Int) (sp : Option String) (b : Builder)
    (h : (emitQuantified code u q mn mx sp b).2.isSome) :
    (emitQuantified code u q mn mx sp b).1 = b := by
  unfold emitQuantified at h ⊢
  cases hg : getQuantifierAndExplanation q mn mx sp u with
  | error e => rfl
  | ok pr => rw [hg] at h; obtain ⟨quant, expl⟩ := pr; simp at h

/-- C3 (amended): every public token-emitting call that raises leaves the
builder's two sequences exactly as they were — with the single exception
of `end_group`, whose failing calls leave one extra `")"` pattern fragment
(and the explanations unchanged), because the source appends `")"` before
validating the quantifier. -/
theorem c3_error_state :
    (∀ (m : Bool) (b : Builder),
       (start_anchor m b).2.isSome → (start_anchor m b).1 = b) ∧
    (∀ (m : Bool) (b : Builder),
       (end_anchor m b).2.isSome → (end_anchor m b).1 = b) ∧
    (∀ (q mn mx : Option Int) (sp : Option String) (b : Builder),
       (digits q mn mx sp b).2.isSome → (digits q mn mx sp b).1 = b) ∧
    (∀ (q mn mx : Option Int) (sp : Option String) (b : Builder),
       (non_digits q mn mx sp b).2.isSome → (non_digits q mn mx sp b).1 = b) ∧
    (∀ (q mn mx : Option Int) (sp : Option String) (b : Builder),
       (word_chars q mn mx sp b).2.isSome → (word_chars q mn mx sp b).1 = b) ∧
    (∀ (q mn mx : Option Int) (sp : Option String) (b : Builder),
       (non_word_chars q mn mx sp b).2.isSome → (non_word_chars q mn mx sp b).1 = b) ∧
    (∀ (q mn mx : Option Int) (sp : Option String) (b : Builder),
       (whitespace_chars q mn mx sp b).2.isSome → (whitespace_chars q mn mx sp b).1 = b) ∧
    (∀ (q mn mx : Option Int) (sp : Option String) (b : Builder),
       (non_whitespace_chars q mn mx sp b).2.isSome →
         (non_whitespace_chars q mn mx sp b).1 = b) ∧
    (∀ (b : Builder), (word_boundary b).2.isSome → (word_boundary b).1 = b) ∧
    (∀ (b : Builder), (non_word_boundary b).2.isSome → (non_word_boundary b).1 = b) ∧
    (∀ (text : String) (q mn mx : Option Int) (sp : Option String)
       (cap : Bool) (b : Builder),
       (literal text q mn mx sp cap b).2.isSome → (literal text q mn mx sp cap b).1 = b) ∧
    (∀ (cap : Bool) (b : Builder),
       (start_group cap b).2.isSome → (start_group cap b).1 = b) ∧
    (∀ (arg : PyObj) (b : Builder),
       (lookahead arg b).2.isSome → (lookahead arg b).1 = b) ∧
    (∀ (arg : PyObj) (b : Builder),
       (negative_lookahead arg b).2.isSome → (negative_lookahead arg b).1 = b) ∧
    (∀ (arg : PyObj) (b : Builder),
       (lookbehind arg b).2.isSome → (lookbehind arg b).1 = b) ∧
    (∀ (arg : PyObj) (b : Builder),
       (negative_lookbehind arg b).2.isSome → (negative_lookbehind arg b).1 = b) ∧
    (∀ (chars : String) (neg : Bool) (q mn mx : Option Int) (sp : Option String)
       (b : Builder),
       (char_class chars neg q mn mx sp b).2.isSome →
         (char_class chars neg q mn mx sp b).1 = b) ∧
    (∀ (start stop : String) (neg : Bool) (q mn mx : Option Int)
       (sp : Option String) (b : Builder),
       (char_range start stop neg q mn mx sp b).2.isSome →
         (char_range start stop neg q mn mx sp b).1 = b) ∧
    (∀ (ranges : List (String × String)) (neg : Bool) (q mn mx : Option Int)
       (sp : Option String) (b : Builder),
       (char_ranges ranges neg q mn mx sp b).2.isSome →
         (char_ranges ranges neg q mn mx sp b).1 = b) ∧
    (∀ (chars : String) (ranges : List (String × String)) (escs : List String)
       (neg : Bool) (q mn mx : Option Int) (sp : Option String) (b : Builder),
       (char_class_mixed chars ranges escs neg q mn mx sp b).2.isSome →
         (char_class_mixed chars ranges escs neg q mn mx sp b).1 = b) ∧
    (∀ (q mn mx : Option Int) (sp : Option String) (b : Builder),
       (end_group q mn mx sp b).2.isSome →
         (end_group q mn mx sp b).1 =
           { b with pattern_parts := b.pattern_parts ++ [")"] }) := by
  refine ⟨fun m b h => by simp [start_anchor] at h,
    fun m b h => by simp [end_anchor] at h,
    emitQuantified_error_state "\\d" _,
    emitQuantified_error_state "\\D" _,
    emitQuantified_error_state "\\w" _,
    emitQuantified_error_state "\\W" _,
    emitQuantified_error_state "\\s" _,
    emitQuantified_error_state "\\S" _,
    fun b h => by simp [word_boundary] at h,
    fun b h => by simp [non_word_boundary] at h,
    ?_, fun cap b h => by simp [start_group] at h, ?_, ?_, ?_, ?_, ?_, ?_, ?_, ?_, ?_⟩
  · intro text q mn mx sp cap b h
    unfold literal at h ⊢
    cases hte : text.isEmpty
    · cases hg : getQuantifierAndExplanation q mn mx sp
          ("literal string", "literal strings") with
      | error e => rfl
      | ok pr => obtain ⟨quant, expl⟩ := pr; simp [hte, hg] at h
    · rfl
  · intro arg b h
    unfold lookahead at h ⊢
    cases hp : processLookaroundPattern arg with
    | error e => rfl
    | ok pr => obtain ⟨sp', ex'⟩ := pr; simp [hp] at h
  · intro arg b h
    unfold negative_lookahead at h ⊢
    cases hp : processLookaroundPattern arg with
    | error e => rfl
    | ok pr => obtain ⟨sp', ex'⟩ := pr; simp [hp] at h
  · intro arg b h
    unfold lookbehind at h ⊢
    cases hp : processLookaroundPattern arg with
    | error e => rfl
    | ok pr => obtain ⟨sp', ex'⟩ := pr; simp [hp] at h
  · intro arg b h
    unfold negative_lookbehind at h ⊢
    cases hp : processLookaroundPattern arg with
    | error e => rfl
    | ok pr => obtain ⟨sp', ex'⟩ := pr; simp [hp] at h
  · intro chars neg q mn mx sp b h
    unfold char_class at h ⊢
    cases hce : chars.isEmpty
    · cases hes : escapeCharClassChars chars with
      | error e => rfl
      | ok esc =>
          cases hg : getQuantifierAndExplanation q mn mx sp
              ("character from class", "characters from class") with
          | error e => rfl
          | ok pr => obtain ⟨quant, expl⟩ := pr; simp [hce, hes, hg] at h
    · rfl
  · intro start stop neg q mn mx sp b h
    unfold char_range at h ⊢
    cases hv : validateCharRange start stop with
    | error e => rfl
    | ok ws =>
        cases hg : getQuantifierAndExplanation q mn mx sp
            ("character from range", "characters from range") with
        | error e => rfl
        | ok pr => obtain ⟨quant, expl⟩ := pr; simp [hv, hg] at h
  · intro ranges neg q mn mx sp b h
    unfold char_ranges at h ⊢
    cases hre : ranges.isEmpty
    · cases hv : validateRangesList ranges with
      | error e => rfl
      | ok u =>
          cases hg : getQuantifierAndExplanation q mn mx sp
              ("character from ranges", "characters from ranges") with
          | error e => rfl
          | ok pr => obtain ⟨quant, expl⟩ := pr; simp [hre, hv, hg] at h
    · rfl
  · intro chars ranges escs neg q mn mx sp b h
    unfold char_class_mixed at h ⊢
    by_cases h0 : chars.isEmpty ∧ ranges.isEmpty ∧ escs.isEmpty
    · rw [if_pos h0]
    · rw [if_neg h0] at h ⊢
      dsimp only at h ⊢
      cases hce : chars.isEmpty
      · cases hes : escapeCharClassCharsMixed chars (!ranges.isEmpty || !escs.isEmpty) with
        | error e => rfl
        | ok esc =>
            cases hv : validateRangesList ranges with
            | error e => simp [hes, hv]
            | ok u =>
                cases hve : validateEscapesList escs with
                | error e => simp [hes, hv, hve]
                | ok u' =>
                    cases hg : getQuantifierAndExplanation q mn mx sp
                        ("character from class", "characters from class") with
                    | error e => simp [hes, hv, hve, hg]
                    | ok pr =>
                        obtain ⟨quant, expl⟩ := pr
                        simp [hce, hes, hv, hve, hg] at h
      · cases hv : validateRangesList ranges with
        | error e => simp [hv]
        | ok u =>
            cases hve : validateEscapesList escs with
            | error e => simp [hv, hve]
            | ok u' =>
                cases hg : getQuantifierAndExplanation q mn mx sp
                    ("character from class", "characters from class") with
                | error e => simp [hv, hve, hg]
                | ok pr =>
                    obtain ⟨quant, expl⟩ := pr
                    simp [hce, hv, hve, hg] at h
  · intro q mn mx sp b h
    unfold end_group at h ⊢
    cases hg : getQuantifierAndExplanation q mn mx sp ("group", "groups") with
    | error e => rfl
    | ok pr =>
        obtain ⟨quant, expl⟩ := pr
        by_cases hq : quant ≠ "" <;> simp [hg, hq] at h

/-- Witness for C3: a failing `digits` call (non-positive quantity) leaves
the builder untouched; a failing `end_group` call leaves exactly the extra
`")"` fragment. -/
theorem c3_witness :
    (digits (some 0) none none none emptyBuilder).1 = emptyBuilder ∧
    (end_group (some 3) none none (some "+") emptyBuilder).1 =
      { emptyBuilder with pattern_parts := emptyBuilder.pattern_parts ++ [")"] } := by
  constructor
  · exact c3_error_state.2.2.1 (some 0) none none none emptyBuilder (by decide)
  · exact c3_error_state.2.2.2.2.2.2.2.2.2.2.2.2.2.2.2.2.2.2.2.2
      (some 3) none none (some "+") emptyBuilder (by decide)

/-! ### C6 -/

theorem validateCharRange_ok_iff (start stop : String) :
    (∃ ws, validateCharRange start stop = .ok ws) ↔
    (start.length = 1 ∧ stop.length = 1 ∧ headOrd start ≤ headOrd stop) := by
  unfold validateCharRange
  split_ifs with h1 h2
  · constructor
    · rintro ⟨ws, hws⟩; cases hws
    · rintro ⟨hL, -, -⟩; exact absurd hL h1
  · constructor
    · rintro ⟨ws, hws⟩; cases hws
    · rintro ⟨-, hL, -⟩; exact absurd hL h2
  · dsimp only
    by_cases h3 : headOrd start > headOrd stop
    · rw [if_pos h3]
      constructor
      · rintro ⟨ws, hws⟩; cases hws
      · rintro ⟨-, -, hle⟩; omega
    · rw [if_neg h3]
      constructor
      · intro _
        refine ⟨by omega, by omega, by omega⟩
      · intro _; exact ⟨_, rfl⟩

theorem char_range_validate_ok_success (start stop : String) (ws : List String)
    (b : Builder) (hws : validateCharRange start stop = .ok ws) :
    (char_range start stop false none none none none b).2 = none := by
  unfold char_range
  rw [hws]
  rfl

/-- C6 counterexample: `char_range` with a perfectly valid range but an
invalid quantifier argument (qty 0) still raises a `ValueError` — so
"raises an invalid-argument error if and only if start or end is not
exactly one character or start's code point exceeds end's" fails in the
only-if direction once the elided quantifier arguments range freely. -/
theorem c6_counterexample :
    (char_range "a" "b" false (some 0) none none none emptyBuilder).2 =
      some (PyError.valueError "Quantities cannot be equal to or less than zero.") := rfl

/-- C6 (amended): with default (hence valid) quantifier arguments,
`char_range` raises a `ValueError` exactly when start or end is not a
single character or start's code point exceeds end's; `char_range "z" "a"`
fails for EVERY choice of the remaining arguments; `char_range "a" "a"`
succeeds and emits the one-element class `[a-a]`; and a cross-category
range such as `0`-`z` validates successfully while producing non-fatal
advisory warnings. -/
theorem c6_char_range_validation :
    (∀ (start stop : String) (b : Builder),
       raisesVE (char_range start stop false none none none none b) ↔
         (start.length ≠ 1 ∨ stop.length ≠ 1 ∨ headOrd stop < headOrd start)) ∧
    (∀ (negated : Bool) (qty mn mx : Option Int) (sp : Option String) (b : Builder),
       raisesVE (char_range "z" "a" negated qty mn mx sp b)) ∧
    (char_range "a" "a" false none none none none emptyBuilder =
       ({ pattern_parts := ["[a-a]"],
          explanations := [PyVal.str "Any character in range 'a' to 'a'"] }, none)) ∧
    (∃ ws, validateCharRange "0" "z" = .ok ws ∧ ws ≠ []) := by
  refine ⟨?_, ?_, by rfl, ⟨_, rfl, by decide⟩⟩
  · intro start stop b
    have hiff := validateCharRange_ok_iff start stop
    constructor
    · rintro ⟨m, hm⟩
      by_contra hcon
      push_neg at hcon
      obtain ⟨ws, hws⟩ := hiff.mpr hcon
      rw [char_range_validate_ok_success start stop ws b hws] at hm
      cases hm
    · intro hdis
      rcases validateCharRange_cases start stop with ⟨ws, hws⟩ | ⟨m, hm⟩
      · exfalso
        obtain ⟨hL1, hL2, hle⟩ := hiff.mp ⟨ws, hws⟩
        rcases hdis with h | h | h
        · exact h hL1
        · exact h hL2
        · omega
      · unfold char_range
        rw [hm]
        exact ⟨m, rfl⟩
  · intro negated qty mn mx sp b
    rcases validateCharRange_cases "z" "a" with ⟨ws, hws⟩ | ⟨m, hm⟩
    · obtain ⟨-, -, hle⟩ := (validateCharRange_ok_iff "z" "a").mp ⟨ws, hws⟩
      exact absurd hle (by decide)
    · unfold char_range
      rw [hm]
      exact ⟨m, rfl⟩

/-- Witness for C6: a two-character start makes `char_range` raise. -/
theorem c6_witness :
    raisesVE (char_range "ab" "z" false none none none none emptyBuilder) :=
  (c6_char_range_validation.1 "ab" "z" emptyBuilder).mpr (Or.inl (by decide))

/-! ### C7 -/

/-- The claim's description of in-class escaping, written from the spec's
words: `]` and `\` are always escaped; `^` is escaped only when it is the
first character; `-` is escaped only strictly between the first and last
position; every other character is emitted unchanged. -/
def specClassEscapeChar (n i : Nat) (c : Char) : String :=
  if c = ']' ∨ c = '\\' then "\\" ++ String.singleton c
  else if c = '^' then if i = 0 then "\\^" else "^"
  else if c = '-' then if 0 < i ∧ i + 1 < n then "\\-" else "-"
  else String.singleton c

/-- The spec's escaping applied position-wise over the whole string. -/
def specClassEscape (chars : String) : String :=
  String.join (chars.data.enum.map fun p =>
    specClassEscapeChar chars.data.length p.1 p.2)

theorem stringJoin_cons (a : String) (l : List String) :
    String.join (a :: l) = a ++ String.join l := by
  have key : ∀ (l : List String) (x : String),
      List.foldl (fun r s => r ++ s) x l =
        x ++ List.foldl (fun r s => r ++ s) "" l := by
    intro l
    induction l with
    | nil => intro x; simp
    | cons b t ih =>
        intro x
        simp only [List.foldl_cons]
        rw [ih (x ++ b), ih ("" ++ b)]
        simp [String.append_assoc]
  simp only [String.join, List.foldl_cons]
  rw [show ("" : String) ++ a = a by simp]
  exact key l a

theorem escChar_eq (n i : Nat) (c : Char) :
    sourceEscChar n i c = specClassEscapeChar n i c := by
  unfold sourceEscChar specClassEscapeChar
  by_cases h1 : c = ']'
  · subst h1; rfl
  by_cases h2 : c = '\\'
  · subst h2; rfl
  rw [if_neg h1, if_neg h2, if_neg (show ¬(c = ']' ∨ c = '\\') by tauto)]
  by_cases h3 : c = '^'
  · subst h3
    rw [if_pos rfl]
    by_cases hi : i = 0
    · subst hi
      rw [if_pos ⟨rfl, rfl⟩, if_pos rfl]
    · rw [if_neg (fun hcon => hi hcon.2), if_neg hi,
        if_neg (fun hcon => absurd hcon.1 (by decide))]
      rfl
  · rw [if_neg (fun hcon => h3 hcon.1), if_neg h3]
    by_cases h4 : c = '-'
    · subst h4
      rw [if_pos rfl]
      by_cases h5 : 0 < i ∧ i < n - 1
      · rw [if_pos ⟨rfl, h5.1, h5.2⟩, if_pos (by omega)]
      · rw [if_neg (fun hcon => h5 ⟨hcon.2.1, hcon.2.2⟩), if_neg (by omega)]
        rfl
    · rw [if_neg (fun hcon => h4 hcon.1), if_neg h4]

theorem escapeFold_eq (cs : List Char) : ∀ (n i : Nat) (acc : String),
    escapeFold n i cs acc =
      acc ++ String.join ((List.enumFrom i cs).map fun p =>
        specClassEscapeChar n p.1 p.2) := by
  induction cs with
  | nil => intro n i acc; simp [escapeFold, String.join]
  | cons c rest ih =>
      intro n i acc
      simp only [escapeFold, List.enumFrom_cons, List.map_cons, stringJoin_cons,
        escChar_eq]
      rw [ih, String.append_assoc]

/-- C7: for every non-empty (and null-free) character string, the escaping
`_escape_char_class_chars` applies inside the emitted class is exactly the
spec's rule: `]` and `\` always escaped, `^` escaped only at the first
position, `-` escaped only strictly between the first and last position,
everything else unchanged. -/
theorem c7_char_class_escaping (chars : String) (hne : chars ≠ "")
    (hnull : chars.data.contains '\x00' = false) :
    escapeCharClassChars chars = .ok (specClassEscape chars) := by
  unfold escapeCharClassChars
  rw [if_neg (by simp [isEmpty_false_of_ne chars hne]), if_neg (by rw [hnull]; simp)]
  rw [escapeFold_eq]
  unfold specClassEscape
  simp [List.enum]

/-- Witness for C7 on the concrete class string `"a-b]^"`: the middle
hyphen and the `]` are escaped, the non-leading `^` is not. -/
theorem c7_witness :
    escapeCharClassChars "a-b]^" = .ok (specClassEscape "a-b]^") ∧
    specClassEscape "a-b]^" = "a\\-b\\]^" :=
  ⟨c7_char_class_escaping "a-b]^" (by decide) (by decide), by decide⟩

/-! ### C9 -/

/-- The explanation a lookaround derives from a conforming sub-builder:
its non-empty trimmed explanation entries joined with `"; "`, or the raw
sub-pattern when none remain. -/
def lookExplanation (sub : Builder) : String :=
  let items := ((explain sub).map (fun s => s.trim)).filter (fun s => ¬ s.isEmpty)
  if items.isEmpty then build sub else String.intercalate "; " items

/-- C9 counterexample: a foreign value exposing BOTH a `build` result and
an `explain` result — i.e. a value with the claimed capability pair — is
still rejected with a `TypeError`, because the source performs a concrete
`isinstance(builder, RegexBuilder)` check rather than a structural one. -/
theorem c9_counterexample :
    lookahead (PyObj.foreign (some "x") (some [PyVal.str "y"])) emptyBuilder =
      (emptyBuilder,
       some (PyError.typeError "Lookaround pattern must be a RegexBuilder instance.")) := rfl

/-- C9 (amended): the four lookaround methods accept exactly
`RegexBuilder` instances: every non-instance argument — even one exposing
`build`/`explain` — raises a `TypeError` and leaves the builder unchanged;
a `RegexBuilder` argument's built pattern is wrapped verbatim in
`(?=…)` / `(?!…)` / `(?<=…)` / `(?<!…)` respectively, and its non-empty
trimmed explanation entries are joined with `"; "` under the prefixes
"if followed by " / "if not followed by " / "if preceded by " /
"if not preceded by ", falling back to the raw sub-pattern string when no
non-empty entries remain. -/
theorem c9_lookaround (b : Builder) :
    (∀ (bp : Option String) (ep : Option (List PyVal)),
       lookahead (.foreign bp ep) b =
         (b, some (.typeError "Lookaround pattern must be a RegexBuilder instance.")) ∧
       negative_lookahead (.foreign bp ep) b =
         (b, some (.typeError "Lookaround pattern must be a RegexBuilder instance.")) ∧
       lookbehind (.foreign bp ep) b =
         (b, some (.typeError "Lookaround pattern must be a RegexBuilder instance.")) ∧
       negative_lookbehind (.foreign bp ep) b =
         (b, some (.typeError "Lookaround pattern must be a RegexBuilder instance."))) ∧
    (∀ (sub : Builder),
       lookahead (.regexBuilder sub) b =
         ({ pattern_parts := b.pattern_parts ++ ["(?=" ++ build sub ++ ")"],
            explanations := b.explanations ++
              [PyVal.str ("if followed by " ++ lookExplanation sub)] }, none) ∧
       negative_lookahead (.regexBuilder sub) b =
         ({ pattern_parts := b.pattern_parts ++ ["(?!" ++ build sub ++ ")"],
            explanations := b.explanations ++
              [PyVal.str ("if not followed by " ++ lookExplanation sub)] }, none) ∧
       lookbehind (.regexBuilder sub) b =
         ({ pattern_parts := b.pattern_parts ++ ["(?<=" ++ build sub ++ ")"],
            explanations := b.explanations ++
              [PyVal.str ("if preceded by " ++ lookExplanation sub)] }, none) ∧
       negative_lookbehind (.regexBuilder sub) b =
         ({ pattern_parts := b.pattern_parts ++ ["(?<!" ++ build sub ++ ")"],
            explanations := b.explanations ++
              [PyVal.str ("if not preceded by " ++ lookExplanation sub)] }, none)) :=
  ⟨fun _bp _ep => ⟨rfl, rfl, rfl, rfl⟩, fun _sub => ⟨rfl, rfl, rfl, rfl⟩⟩

/-! ### C5 -/

theorem emitQuantified_success_len (code : String) (u : String × String)
    (q mn mx : Option Int) (sp : Option String) (b : Builder)
    (h : (emitQuantified code u q mn mx sp b).2 = none) :
    (emitQuantified code u q mn mx sp b).1.explanations.length =
      b.explanations.length + 1 := by
  unfold emitQuantified at h ⊢
  cases hg : getQuantifierAndExplanation q mn mx sp u with
  | error e => simp [hg] at h
  | ok pr => obtain ⟨quant, expl⟩ := pr; simp

theorem literal_success_len (text : String) (q mn mx : Option Int)
    (sp : Option String) (cap : Bool) (b : Builder)
    (h0 : text.isEmpty = false)
    (h : (literal text q mn mx sp cap b).2 = none) :
    (literal text q mn mx sp cap b).1.explanations.length =
      b.explanations.length + 1 := by
  unfold literal at h ⊢
  rw [h0] at h ⊢
  cases hg : getQuantifierAndExplanation q mn mx sp
      ("literal string", "literal strings") with
  | error e => simp [hg] at h
  | ok pr => obtain ⟨quant, expl⟩ := pr; simp

theorem lookahead_success_len (arg : PyObj) (b : Builder)
    (h : (lookahead arg b).2 = none) :
    (lookahead arg b).1.explanations.length = b.explanations.length + 1 := by
  unfold lookahead at h ⊢
  cases hp : processLookaroundPattern arg with
  | error e => simp [hp] at h
  | ok pr => obtain ⟨sp', ex'⟩ := pr; simp

theorem negative_lookahead_success_len (arg : PyObj) (b : Builder)
    (h : (negative_lookahead arg b).2 = none) :
    (negative_lookahead arg b).1.explanations.length =
      b.explanations.length + 1 := by
  unfold negative_lookahead at h ⊢
  cases hp : processLookaroundPattern arg with
  | error e => simp [hp] at h
  | ok pr => obtain ⟨sp', ex'⟩ := pr; simp

theorem lookbehind_success_len (arg : PyObj) (b : Builder)
    (h : (lookbehind arg b).2 = none) :
    (lookbehind arg b).1.explanations.length = b.explanations.length + 1 := by
  unfold lookbehind at h ⊢
  cases hp : processLookaroundPattern arg with
  | error e => simp [hp] at h
  | ok pr => obtain ⟨sp', ex'⟩ := pr; simp

theorem negative_lookbehind_success_len (arg : PyObj) (b : Builder)
    (h : (negative_lookbehind arg b).2 = none) :
    (negative_lookbehind arg b).1.explanations.length =
      b.explanations.length + 1 := by
  unfold negative_lookbehind at h ⊢
  cases hp : processLookaroundPattern arg with
  | error e => simp [hp] at h
  | ok pr => obtain ⟨sp', ex'⟩ := pr; simp

theorem end_group_success_len (q mn mx : Option Int) (sp : Option String)
    (b : Builder) (h : (end_group q mn mx sp b).2 = none) :
    (end_group q mn mx sp b).1.explanations.length =
      b.explanations.length + 1 := by
  unfold end_group at h ⊢
  cases hg : getQuantifierAndExplanation q mn mx sp ("group", "groups") with
  | error e => simp [hg] at h
  | ok pr =>
      obtain ⟨quant, expl⟩ := pr
      by_cases hq : quant ≠ "" <;> simp [hq]

theorem char_class_success_len (chars : String) (neg : Bool)
    (q mn mx : Option Int) (sp : Option String) (b : Builder)
    (h : (char_class chars neg q mn mx sp b).2 = none) :
    (char_class chars neg q mn mx sp b).1.explanations.length =
      b.explanations.length + 1 := by
  unfold char_class at h ⊢
  cases hce : chars.isEmpty
  · cases hes : escapeCharClassChars chars with
    | error e => simp [hce, hes] at h
    | ok esc =>
        cases hg : getQuantifierAndExplanation q mn mx sp
            ("character from class", "characters from class") with
        | error e => simp [hce, hes, hg] at h
        | ok pr => obtain ⟨quant, expl⟩ := pr; simp [hes]
  · simp [hce] at h

theorem char_range_success_len (start stop : String) (neg : Bool)
    (q mn mx : Option Int) (sp : Option String) (b : Builder)
    (h : (char_range start stop neg q mn mx sp b).2 = none) :
    (char_range start stop neg q mn mx sp b).1.explanations.length =
      b.explanations.length + 1 := by
  unfold char_range at h ⊢
  cases hv : validateCharRange start stop with
  | error e => simp [hv] at h
  | ok ws =>
      cases hg : getQuantifierAndExplanation q mn mx sp
          ("character from range", "characters from range") with
      | error e => simp [hv, hg] at h
      | ok pr => obtain ⟨quant, expl⟩ := pr; simp [hv]

theorem char_ranges_success_len (ranges : List (String × String)) (neg : Bool)
    (q mn mx : Option Int) (sp : Option String) (b : Builder)
    (h : (char_ranges ranges neg q mn mx sp b).2 = none) :
    (char_ranges ranges neg q mn mx sp b).1.explanations.length =
      b.explanations.length + 1 := by
  unfold char_ranges at h ⊢
  cases hre : ranges.isEmpty
  · cases hv : validateRangesList ranges with
    | error e => simp [hre, hv] at h
    | ok u =>
        cases hg : getQuantifierAndExplanation q mn mx sp
            ("character from ranges", "characters from ranges") with
        | error e => simp [hre, hv, hg] at h
        | ok pr => obtain ⟨quant, expl⟩ := pr; simp [hv]
  · simp [hre] at h

theorem char_class_mixed_success_len (chars : String)
    (ranges : List (String × String)) (escs : List String) (neg : Bool)
    (q mn mx : Option Int) (sp : Option String) (b : Builder)
    (h : (char_class_mixed chars ranges escs neg q mn mx sp b).2 = none) :
    (char_class_mixed chars ranges escs neg q mn mx sp b).1.explanations.length =
      b.explanations.length + 1 := by
  unfold char_class_mixed at h ⊢
  by_cases h0 : chars.isEmpty ∧ ranges.isEmpty ∧ escs.isEmpty
  · rw [if_pos h0] at h; simp at h
  · rw [if_neg h0] at h ⊢
    dsimp only at h ⊢
    cases hce : chars.isEmpty
    · cases hes : escapeCharClassCharsMixed chars (!ranges.isEmpty || !escs.isEmpty) with
      | error e => simp [hce, hes] at h
      | ok esc =>
          cases hv : validateRangesList ranges with
          | error e => simp [hce, hes, hv] at h
          | ok u =>
              cases hve : validateEscapesList escs with
              | error e => simp [hce, hes, hv, hve] at h
              | ok u' =>
                  cases hg : getQuantifierAndExplanation q mn mx sp
                      ("character from class", "characters from class") with
                  | error e => simp [hce, hes, hv, hve, hg] at h
                  | ok pr => obtain ⟨quant, expl⟩ := pr; simp [hes, hv, hve]
    · cases hv : validateRangesList ranges with
      | error e => simp [hce, hv] at h
      | ok u =>
          cases hve : validateEscapesList escs with
          | error e => simp [hce, hv, hve] at h
          | ok u' =>
              cases hg : getQuantifierAndExplanation q mn mx sp
                  ("character from class", "characters from class") with
              | error e => simp [hce, hv, hve, hg] at h
              | ok pr => obtain ⟨quant, expl⟩ := pr; simp [hv, hve]

theorem applyOp_success_explanations (op : Op) (b : Builder)
    (h : (applyOp op b).2 = none) :
    ((applyOp op b).1).explanations.length =
      b.explanations.length + (if isNoOp op then 0 else 1) := by
  cases op with
  | startAnchorOp m => simp [applyOp, start_anchor, isNoOp]
  | endAnchorOp m => simp [applyOp, end_anchor, isNoOp]
  | digitsOp q mn mx sp =>
      exact emitQuantified_success_len _ _ _ _ _ _ _ h
  | nonDigitsOp q mn mx sp =>
      exact emitQuantified_success_len _ _ _ _ _ _ _ h
  | wordCharsOp q mn mx sp =>
      exact emitQuantified_success_len _ _ _ _ _ _ _ h
  | nonWordCharsOp q mn mx sp =>
      exact emitQuantified_success_len _ _ _ _ _ _ _ h
  | whitespaceCharsOp q mn mx sp =>
      exact emitQuantified_success_len _ _ _ _ _ _ _ h
  | nonWhitespaceCharsOp q mn mx sp =>
      exact emitQuantified_success_len _ _ _ _ _ _ _ h
  | wordBoundaryOp => simp [applyOp, word_boundary, isNoOp]
  | nonWordBoundaryOp => simp [applyOp, non_word_boundary, isNoOp]
  | literalOp t q mn mx sp cap =>
      cases ht : t.isEmpty
      · have := literal_success_len t q mn mx sp cap b ht h
        simp only [applyOp, isNoOp, ht, if_false, Bool.false_eq_true]
        exact this
      · simp [applyOp, literal, ht, isNoOp]
  | startGroupOp cap => simp [applyOp, start_group, isNoOp]
  | endGroupOp q mn mx sp => exact end_group_success_len _ _ _ _ _ h
  | lookaheadOp a => exact lookahead_success_len _ _ h
  | negativeLookaheadOp a => exact negative_lookahead_success_len _ _ h
  | lookbehindOp a => exact lookbehind_success_len _ _ h
  | negativeLookbehindOp a => exact negative_lookbehind_success_len _ _ h
  | charClassOp cs n q mn mx sp => exact char_class_success_len _ _ _ _ _ _ _ h
  | charRangeOp s e n q mn mx sp =>
      exact char_range_success_len _ _ _ _ _ _ _ _ h
  | charRangesOp rs n q mn mx sp =>
      exact char_ranges_success_len _ _ _ _ _ _ _ h
  | charClassMixedOp cs rs es n q mn mx sp =>
      exact char_class_mixed_success_len _ _ _ _ _ _ _ _ _ h

theorem runOps_explanations (ops : List Op) : ∀ (b0 b : Builder),
    runOps ops b0 = (b, none) →
    b.explanations.length = b0.explanations.length +
      (ops.filter (fun op => !isNoOp op)).length := by
  induction ops with
  | nil =>
      intro b0 b h
      unfold runOps at h
      injection h with h1 h2
      subst h1
      simp
  | cons op rest ih =>
      intro b0 b h
      unfold runOps at h
      cases hap : applyOp op b0 with
      | mk b1 err =>
          cases err with
          | none =>
              have hlen := applyOp_success_explanations op b0 (by rw [hap])
              rw [hap] at hlen h
              have hrest := ih b1 b h
              by_cases hno : isNoOp op <;>
                simp [hno, List.filter_cons] at hlen ⊢ <;>
                omega
          | some e => rw [hap] at h; simp at h

/-- C5: for every chain of successful public token-emitting calls, the
length of `explain()`'s result grows by exactly the number of calls that
were not no-ops (only `literal` with empty text is a no-op; every other
call, `end_group` with or without a quantifier included, contributes
exactly one explanation entry); and `explain` stringifies every stored
element, returning exactly one string per internal element no matter what
was injected. -/
theorem c5_explain_sync (ops : List Op) (b0 b : Builder)
    (h : runOps ops b0 = (b, none)) :
    (explain b).length = (explain b0).length +
      (ops.filter (fun op => !isNoOp op)).length ∧
    (∀ (b' : Builder), (explain b').length = b'.explanations.length) := by
  constructor
  · have := runOps_explanations ops b0 b h
    simpa [explain] using this
  · intro b'; simp [explain]

/-- Witness for C5: a concrete chain (anchor, empty literal, digits,
end-group) run from the empty builder yields exactly three explanation
entries — the empty literal contributes none. -/
theorem c5_witness :
    (explain (runOps [Op.startAnchorOp false,
        Op.literalOp "" none none none none false,
        Op.digitsOp (some 3) none none none,
        Op.endGroupOp none none none none] emptyBuilder).1).length =
      (explain emptyBuilder).length +
        (([Op.startAnchorOp false,
           Op.literalOp "" none none none none false,
           Op.digitsOp (some 3) none none none,
           Op.endGroupOp none none none none].filter
             (fun op => !isNoOp op)).length) :=
  (c5_explain_sync _ emptyBuilder _ (by rfl)).1

end RegexCentral
